import Mathlib

/-!
Verification of the task-lifecycle orchestrator in this repository
(src/main.py, src/sweap_salvage_testing_script.py and their helpers).

The embedding models every externally-effectful docker invocation as an
abstract command value; the per-task pipeline of src/main.py becomes a
function from the outcomes of the external operations (downloads, unzip,
image build, container start, agent run, test exec) to the resulting
resource ledger, the recorded task result and the list of commands issued.
-/

namespace Salvage

/-- One external docker (or helper-container) invocation issued by the
orchestrator.  Each constructor mirrors one concrete command line in the
source. -/
inductive Cmd where
  /-- docker ps -aq --filter volume=vol (src/docker/container.py line 63). -/
  | psFilterVolume (vol : String)
  /-- docker rm -f name (issued both for tracked containers and for the
  container ids returned by the volume filter query). -/
  | rmForce (name : String)
  /-- docker volume rm vol. -/
  | volumeRm (vol : String)
  /-- docker volume create vol (src/main.py line 154). -/
  | volumeCreate (vol : String)
  /-- busybox tar round-trip copying the task workspace into the named
  volume (src/main.py lines 180 to 186). -/
  | copyWorkspaceToVolume (vol : String)
  /-- busybox tar round-trip staging the volume contents into the temporary
  build context (src/main.py lines 193 to 199). -/
  | stageBuildContext (vol : String)
  /-- docker build -t tag run against the staged context (src/main.py
  lines 200 to 204). -/
  | buildImage (tag : String)
  /-- docker run -d --name name -v vol:mount tag bash -lc sleep infinity
  (src/main.py lines 220 to 225). -/
  | runDetached (name : String) (tag : String) (vol : String)
  /-- the dedicated SWE-agent runner container launched against the task
  volume (src/swe/agent.py, treated as one collaborator invocation). -/
  | agentContainer (vol : String)
  /-- docker exec -i container bash -lc testCmd (src/main.py line 266). -/
  | execTest (container : String) (testCmd : String)
deriving Repr, DecidableEq

/-- Outcome of one external command: a completed process with an exit code,
or a raised exception (OSError and friends from subprocess). -/
inductive CmdRes where
  | exitCode (rc : Int)
  | exn (msg : String)
deriving Repr, DecidableEq

/-- run_argv with check=False (src/utils/command.py lines 26 to 52): the
call returns the completed process, and only an exception from the
subprocess machinery propagates. -/
def run_argv_nocheck (res : Cmd → CmdRes) (c : Cmd) : Except String Int :=
  match res c with
  | CmdRes.exn m => Except.error m
  | CmdRes.exitCode rc => Except.ok rc

/-- The process-wide resource ledger _volatile of src/main.py line 100:
the list of currently tracked container names and volume names. -/
structure Ledger where
  containers : List String
  volumes : List String
deriving Repr, DecidableEq

/-- _force_remove_containers_using_volume (src/docker/container.py lines
41 to 71): query the container ids still referencing the volume, then
force-remove each.  Every invocation inside is check=False and the whole
body is wrapped in try/except pass, so the outcomes never alter control
flow; the function contributes only its command trace.  The ps oracle
gives the ids the filter query returns. -/
def force_remove_containers_using_volume (ps : String → List String) (vol : String) :
    List Cmd :=
  Cmd.psFilterVolume vol :: (ps vol).map Cmd.rmForce

/-- The container half of _cleanup (src/main.py lines 105 to 111): for each
tracked container, attempt docker rm -f inside try/except pass; the
finally block removes the entry from the tracked list regardless of the
outcome, so the outcome of run_argv is discarded. -/
def cleanup_container_cmds (res : Cmd → CmdRes) : List String → List Cmd
  | [] => []
  | c :: rest =>
    (match run_argv_nocheck res (Cmd.rmForce c) with
     | _ => [Cmd.rmForce c]) ++ cleanup_container_cmds res rest

/-- The volume half of _cleanup (src/main.py lines 112 to 119): for each
tracked volume, evict any containers still using it, then attempt
docker volume rm, all inside try/except pass with a finally that drops the
ledger entry; outcomes are discarded. -/
def cleanup_volume_cmds (res : Cmd → CmdRes) (ps : String → List String) :
    List String → List Cmd
  | [] => []
  | v :: rest =>
    (force_remove_containers_using_volume ps v ++
      (match run_argv_nocheck res (Cmd.volumeRm v) with
       | _ => [Cmd.volumeRm v])) ++ cleanup_volume_cmds res ps rest

/-- _cleanup (src/main.py lines 102 to 119, identical in
src/sweap_salvage_testing_script.py lines 489 to 506): when keep mode is
active it returns at once; otherwise it iterates a snapshot of each
tracked list, attempting the removal of every entry and dropping the entry
from the ledger in a finally block, so both tracked sets end empty no
matter how the individual commands fare.  Every raise inside is caught, so
the function is total. -/
def cleanup (keep : Bool) (res : Cmd → CmdRes) (ps : String → List String)
    (led : Ledger) : Ledger × List Cmd :=
  if keep then (led, [])
  else
    (⟨[], []⟩,
      cleanup_container_cmds res led.containers ++
        cleanup_volume_cmds res ps led.volumes)

/-!  Archive extraction (src/utils/file.py).  A filesystem path is modelled
as its list of components; Path.resolve becomes lexical normalization of
the dot-dot and dot components. -/

/-- Lexical normalization performed by Path.resolve on the joined path:
empty and single-dot components vanish, a dot-dot component removes the
preceding component (at the root it is a no-op, as on a real filesystem). -/
def normalizeComponents (comps : List String) : List String :=
  comps.foldl
    (fun acc c =>
      if c = "" ∨ c = "." then acc
      else if c = ".." then acc.dropLast
      else acc ++ [c])
    []

/-- _is_within_directory (src/utils/file.py lines 5 to 20):
target.resolve().relative_to(base.resolve()) succeeds exactly when the
resolved base is a prefix of (or equal to) the resolved target. -/
def is_within_directory (base target : List String) : Bool :=
  (normalizeComponents base).isPrefixOf (normalizeComponents target)

/-- The validation loop of unzip_to (src/utils/file.py lines 43 to 46):
walk the member list in order and raise at the first member whose joined
path escapes the destination directory. -/
def checkMembers (dest : List String) : List (List String) → Except String Unit
  | [] => Except.ok ()
  | m :: rest =>
    if is_within_directory dest (dest ++ m) then checkMembers dest rest
    else Except.error ("Zip member escapes dest dir: " ++ String.intercalate "/" m)

/-- unzip_to (src/utils/file.py lines 22 to 47): every member path is
validated before any extraction begins; only when the whole list passes
does zf.extractall run, writing every member.  The second component is the
list of paths actually written into the destination. -/
def unzip_to (dest : List String) (members : List (List String)) :
    Except String Unit × List (List String) :=
  match checkMembers dest members with
  | Except.error e => (Except.error e, [])
  | Except.ok _ => (Except.ok (), members)

/-!  Per-task pipeline (the loop body of src/main.py lines 131 to 313).
External collaborator outcomes are supplied by a TaskEnv oracle. -/

/-- Outcome of one download_from_drive call (src/utils/drive.py): it either
returns normally or raises with a message after its retries. -/
inductive DlRes where
  | ok
  | fail (msg : String)
deriving Repr, DecidableEq

/-- Outcome of the image-build try block (src/main.py lines 191 to 205):
the busybox staging command can fail (run_argv check=True raises), and
docker build either completes with an exit code (run_capture_argv raises
on a non-zero one) or hits the build deadline (TimeoutExpired). -/
inductive BuildStage where
  | stageExn (msg : String)
  | exitCode (rc : Int) (output : String)
  | timedOut
deriving Repr, DecidableEq

/-- Outcome of the test exec (src/main.py lines 264 to 303): completion
with an exit code, the test deadline expiring, or any other exception. -/
inductive TestRes where
  | exitCode (rc : Int) (output : String)
  | timedOut
  | err (msg : String)
deriving Repr, DecidableEq

/-- The per-task outcomes of every external operation the pipeline
performs, in pipeline order. -/
structure TaskEnv where
  /-- docker volume create succeeded (src/main.py line 154, check=True). -/
  volumeCreateOk : Bool
  /-- download of the build descriptor (src/main.py line 161). -/
  dlDockerfile : DlRes
  /-- download of the archive (src/main.py line 162). -/
  dlGitZip : DlRes
  /-- unzip_to outcome (src/main.py line 170). -/
  unzipRes : Except String Unit
  /-- the .git marker directory exists after extraction (line 171). -/
  gitDirExists : Bool
  /-- the busybox copy of the workspace into the volume succeeded
  (src/main.py lines 180 to 186, check=True: a failure propagates). -/
  copyOk : Bool
  /-- the staging-plus-build try block (src/main.py lines 191 to 205). -/
  build : BuildStage
  /-- exit code of docker run -d for the test container (check=False). -/
  startRc : Int
  /-- run_swe_agent_in_dedicated_container outcome: ok, or the exception
  caught by the except at src/main.py line 258. -/
  agentRes : Except String Unit
  /-- the test exec stage outcome. -/
  test : TestRes

/-- The terminal record built for a task by src/main.py; fields absent
from a given record stay none. -/
structure TaskResult where
  task_id : String
  status : String
  error : Option String := none
  tests_ran_successfully : Option Bool := none
  tests_exit_code : Option Int := none
deriving Repr, DecidableEq

/-- Volume name for a task (src/main.py line 150). -/
def volumeNameOf (tid : String) : String := "task_vol_" ++ tid

/-- Test-container name (src/main.py line 218, CONTAINER_PREFIX from
src/config.py). -/
def containerNameOf (tid : String) : String := ("container_" ++ tid).toLower

/-- Image tag (src/main.py line 189, IMAGE_PREFIX from src/config.py). -/
def imageTagOf (tid : String) : String := ("task-" ++ tid).toLower

/-- src/main.py lines 150 to 155: evict any stale containers still holding
the task's volume, remove a pre-existing volume of that name, create the
fresh volume (check=True: a failed create propagates and the trace is
lost with it), and register the name in the ledger at once. -/
def provisionVolume (ps : String → List String) (createOk : Bool)
    (led : Ledger) (tid : String) : Except String (Ledger × List Cmd) :=
  let v := volumeNameOf tid
  if createOk then
    Except.ok
      ({ led with volumes := led.volumes ++ [v] },
        force_remove_containers_using_volume ps v ++
          [Cmd.volumeRm v, Cmd.volumeCreate v])
  else Except.error ("Command failed (1): docker volume create " ++ v)

/-- The per-task volume cleanup run on the build_failed and run_failed
paths (src/main.py lines 210 to 214 and 230 to 234): unless keep mode is
active, evict holders, remove the volume, and drop the first matching
ledger entry. -/
def perTaskVolumeCleanup (keep : Bool) (ps : String → List String)
    (led : Ledger) (v : String) : Ledger × List Cmd :=
  if keep then (led, [])
  else
    ({ led with volumes := led.volumes.erase v },
      force_remove_containers_using_volume ps v ++ [Cmd.volumeRm v])

/-- The end-of-task cleanup (src/main.py lines 306 to 313): remove the test
container, evict volume holders, remove the volume, and drop both ledger
entries, unless keep mode is active. -/
def perTaskFullCleanup (keep : Bool) (ps : String → List String)
    (led : Ledger) (container v : String) : Ledger × List Cmd :=
  if keep then (led, [])
  else
    (⟨led.containers.erase container, led.volumes.erase v⟩,
      Cmd.rmForce container ::
        (force_remove_containers_using_volume ps v ++ [Cmd.volumeRm v]))

/-- The result dict built on normal test completion in src/main.py lines
271 to 276: status tests_ran, a success flag fixed to true, and the raw
exit code. -/
def mainTestResult (tid : String) (rc : Int) : TaskResult :=
  { task_id := tid, status := "tests_ran",
    tests_ran_successfully := some true, tests_exit_code := some rc }

/-- The status recorded by the test stage of src/main.py for each of its
three terminal outcomes. -/
def testStatus : TestRes → String
  | TestRes.exitCode _ _ => "tests_ran"
  | TestRes.timedOut => "tests_timeout"
  | TestRes.err _ => "tests_error"

/-- Commands issued inside the build try block: the staging copy always
runs first; docker build is reached unless the staging copy raised. -/
def buildCmds (v tag : String) : BuildStage → List Cmd
  | BuildStage.stageExn _ => [Cmd.stageBuildContext v]
  | _ => [Cmd.stageBuildContext v, Cmd.buildImage tag]

/-- The loop body of src/main.py lines 131 to 313 for one task, given the
outcomes of its external operations.  Returns the updated ledger, the
recorded result, the issued command trace, and the content written to the
agent log on an agent exception; an Except.error is an exception escaping
the loop (only the unguarded check=True invocations can produce one). -/
def runTask (keep : Bool) (ps : String → List String) (env : TaskEnv)
    (led : Ledger) (tid : String) (testCmd : String) :
    Except String (Ledger × TaskResult × List Cmd × Option String) :=
  let v := volumeNameOf tid
  match provisionVolume ps env.volumeCreateOk led tid with
  | Except.error m => Except.error m
  | Except.ok (led1, tr0) =>
    match env.dlDockerfile with
    | DlRes.fail m =>
      Except.ok (led1, { task_id := tid, status := "download_error", error := some m },
        tr0, none)
    | DlRes.ok =>
    match env.dlGitZip with
    | DlRes.fail m =>
      Except.ok (led1, { task_id := tid, status := "download_error", error := some m },
        tr0, none)
    | DlRes.ok =>
    match env.unzipRes with
    | Except.error m =>
      Except.ok (led1, { task_id := tid, status := "unzip_error", error := some m },
        tr0, none)
    | Except.ok _ =>
    if ¬ env.gitDirExists then
      Except.ok (led1,
        { task_id := tid, status := "unzip_error",
          error := some "No .git folder found after unzip" }, tr0, none)
    else
    let tr1 := tr0 ++ [Cmd.copyWorkspaceToVolume v]
    if ¬ env.copyOk then
      Except.error ("Command failed (1): busybox copy into " ++ v)
    else
    let tag := imageTagOf tid
    match env.build with
    | BuildStage.stageExn m =>
      let pc := perTaskVolumeCleanup keep ps led1 v
      Except.ok (pc.1, { task_id := tid, status := "build_failed", error := some m },
        tr1 ++ buildCmds v tag env.build ++ pc.2, none)
    | BuildStage.timedOut =>
      let pc := perTaskVolumeCleanup keep ps led1 v
      Except.ok (pc.1,
        { task_id := tid, status := "build_failed",
          error := some "TimeoutExpired" },
        tr1 ++ buildCmds v tag env.build ++ pc.2, none)
    | BuildStage.exitCode rc out =>
      if rc ≠ 0 then
        let pc := perTaskVolumeCleanup keep ps led1 v
        Except.ok (pc.1,
          { task_id := tid, status := "build_failed",
            error := some ("Command failed (" ++ toString rc ++ "): docker build\n" ++ out) },
          tr1 ++ buildCmds v tag env.build ++ pc.2, none)
      else
      let c := containerNameOf tid
      let tr3 := tr1 ++ buildCmds v tag env.build ++
        [Cmd.rmForce c, Cmd.runDetached c tag v]
      if env.startRc ≠ 0 then
        let pc := perTaskVolumeCleanup keep ps led1 v
        Except.ok (pc.1, { task_id := tid, status := "run_failed" }, tr3 ++ pc.2, none)
      else
      let led2 := { led1 with containers := led1.containers ++ [c] }
      let sweLog : Option String :=
        match env.agentRes with
        | Except.error m => some m
        | Except.ok _ => none
      let tr5 := tr3 ++ [Cmd.agentContainer v, Cmd.execTest c testCmd]
      let res :=
        match env.test with
        | TestRes.exitCode rc2 _ => mainTestResult tid rc2
        | TestRes.timedOut =>
          { task_id := tid, status := "tests_timeout",
            tests_ran_successfully := some false, tests_exit_code := none }
        | TestRes.err m =>
          { task_id := tid, status := "tests_error", error := some m,
            tests_ran_successfully := some false, tests_exit_code := none }
      let fc := perTaskFullCleanup keep ps led2 c v
      Except.ok (fc.1, res, tr5 ++ fc.2, sweLog)

/-!  The second entry-point variant's test classification
(src/sweap_salvage_testing_script.py lines 650 to 674). -/

/-- The status the sweap_salvage_testing_script variant assigns on test
completion (its line 659): exit code zero maps to tests_passed, everything
else to tests_failed. -/
def sweapTestStatus (rc : Int) : String :=
  if rc = 0 then "tests_passed" else "tests_failed"

/-- The result dict built by the sweap variant on test completion (its
lines 660 to 664): no success flag, key test_exit_code. -/
structure SweapTestRecord where
  task_id : String
  status : String
  test_exit_code : Int
deriving Repr, DecidableEq

/-- Builder for the sweap variant's completed-test record. -/
def sweapTestResult (tid : String) (rc : Int) : SweapTestRecord :=
  { task_id := tid, status := sweapTestStatus rc, test_exit_code := rc }

/-!  Agent supervision loop (src/swe/agent.py lines 227 to 258). -/

/-- Observable action of the supervision loop: writing one output line to
the per-task log, proc.terminate, the five-second grace sleep, and
proc.kill. -/
inductive SupAction where
  | writeLine (s : String)
  | terminate
  | sleepGrace (seconds : Nat)
  | kill
deriving Repr, DecidableEq

/-- The line-streaming loop of src/swe/agent.py lines 236 to 248:
start_time is taken once, before the first readline; each emitted line
(a timestamp paired with its text) is written to the log, then elapsed
time since start_time is compared against the timeout; on expiry the
process is terminated, given five seconds of grace, then killed if
proc.poll() still reports it alive, and the loop breaks. -/
def agent_stream_loop (timeoutSeconds : Int) (startTime : Int)
    (aliveAfterGrace : Bool) : List (Int × String) → List SupAction
  | [] => []
  | (t, s) :: rest =>
    SupAction.writeLine s ::
      (if timeoutSeconds > 0 ∧ t - startTime > timeoutSeconds then
        SupAction.terminate :: SupAction.sleepGrace 5 ::
          (if aliveAfterGrace then [SupAction.kill] else [])
      else agent_stream_loop timeoutSeconds startTime aliveAfterGrace rest)

/-- The behaviour the specification describes: the same streaming loop but
with the deadline measured from the timestamp of the first emitted line
rather than from the loop's start time.  Stated only for comparison with
agent_stream_loop. -/
def agent_stream_loop_from_first_line (timeoutSeconds : Int)
    (aliveAfterGrace : Bool) : List (Int × String) → List SupAction
  | [] => []
  | (t0, s0) :: rest =>
    agent_stream_loop timeoutSeconds t0 aliveAfterGrace ((t0, s0) :: rest)

/-!  The run-level driver (src/main.py lines 84 to 326): row filtering,
the task loop, the final cleanup sweep and the summary. -/

/-- One input row; task_id is none when the cell is missing (a pandas
NaN), some s when it holds the string s. -/
structure Row where
  task_id : Option String
  git_zip : String
  issue : String
  dockerfile : String
  test_command : String
deriving Repr, DecidableEq

/-- str(cell) for a task_id cell: Python renders a pandas NaN as the
string nan. -/
def strOfCell : Option String → String
  | none => "nan"
  | some s => s

/-- The dataframe pre-filter of src/main.py lines 92 to 94: drop rows with
a missing task_id, then drop rows whose task_id is blank after strip. -/
def preFilter (rows : List Row) : List Row :=
  (rows.filter (fun r => r.task_id.isSome)).filter
    (fun r => !((strOfCell r.task_id).trim == ""))

/-- The orchestrator loop of src/main.py lines 131 to 313: each surviving
row's task_id is stringified and stripped; the row is skipped when the
result is empty or lowercases to nan; otherwise the per-task pipeline runs
and its result is appended to the run's result list in input order. -/
def runLoop (keep : Bool) (ps : String → List String) (envOf : String → TaskEnv) :
    List Row → Ledger → List TaskResult → List Cmd →
    Except String (Ledger × List TaskResult × List Cmd)
  | [], led, acc, tr => Except.ok (led, acc, tr)
  | r :: rest, led, acc, tr =>
    let tid := (strOfCell r.task_id).trim
    if tid == "" || tid.toLower == "nan" then
      runLoop keep ps envOf rest led acc tr
    else
      match runTask keep ps (envOf tid) led tid r.test_command.trim with
      | Except.error m => Except.error m
      | Except.ok (led', res, tcmds, _lg) =>
        runLoop keep ps envOf rest led' (acc ++ [res]) (tr ++ tcmds)

/-- The whole run (src/main.py main): filter the rows, drive every task,
then run the final cleanup sweep; the returned result list is what is
written to summary.json and summary.csv. -/
def processRun (keep : Bool) (res : Cmd → CmdRes) (ps : String → List String)
    (envOf : String → TaskEnv) (rows : List Row) :
    Except String (Ledger × List TaskResult × List Cmd) :=
  match runLoop keep ps envOf (preFilter rows) ⟨[], []⟩ [] [] with
  | Except.error m => Except.error m
  | Except.ok (led, results, tr) =>
    let cfin := cleanup keep res ps led
    Except.ok (cfin.1, results, tr ++ cfin.2)

/-!  Helper lemmas. -/

/-- A cleanup pass issues one force-remove per tracked container, whatever
the command outcomes are. -/
theorem cleanup_container_cmds_eq (res : Cmd → CmdRes) :
    ∀ l : List String, cleanup_container_cmds res l = l.map Cmd.rmForce
  | [] => rfl
  | c :: rest => by
    simp [cleanup_container_cmds, cleanup_container_cmds_eq res rest]

/-- The volume half of a cleanup pass does not depend on the command
outcomes either. -/
theorem cleanup_volume_cmds_indep (res res' : Cmd → CmdRes)
    (ps : String → List String) :
    ∀ l : List String, cleanup_volume_cmds res ps l = cleanup_volume_cmds res' ps l
  | [] => rfl
  | v :: rest => by
    simp [cleanup_volume_cmds, cleanup_volume_cmds_indep res res' ps rest]

/-- Claim C2: the release-all cleanup operation is idempotent and never
raises: on any ledger, one run with keep mode off drains both tracked
sets whatever the individual command outcomes are (the outcome oracle does
not influence the result at all, which is the formal content of the
source's try/except pass around every removal), and a second run
immediately afterwards issues no external commands. -/
theorem c2_releaseAll_idempotent (res res' : Cmd → CmdRes)
    (ps : String → List String) (led : Ledger) :
    (cleanup false res ps led).1 = ⟨[], []⟩ ∧
    cleanup false res ps led = cleanup false res' ps led ∧
    cleanup false res ps (cleanup false res ps led).1 = (⟨[], []⟩, []) := by
  refine ⟨rfl, ?_, rfl⟩
  simp [cleanup, cleanup_container_cmds_eq, cleanup_volume_cmds_indep res res' ps]

/-- Claim C6: the two entry-point variants disagree on test-outcome
classification.  src/main.py records every completed test execution as
tests_ran with the raw exit code and a success flag fixed to true, while
src/sweap_salvage_testing_script.py maps exit code zero to tests_passed
and anything else to tests_failed; hence on any non-zero test exit code
the two recorded statuses differ. -/
theorem c6_variants_disagree (tid : String) (rc : Int) :
    (mainTestResult tid rc).status = "tests_ran" ∧
    (mainTestResult tid rc).tests_ran_successfully = some true ∧
    (mainTestResult tid rc).tests_exit_code = some rc ∧
    (sweapTestResult tid rc).status = (if rc = 0 then "tests_passed" else "tests_failed") ∧
    (rc ≠ 0 →
      (sweapTestResult tid rc).status = "tests_failed" ∧
      (mainTestResult tid rc).status ≠ (sweapTestResult tid rc).status) := by
  refine ⟨rfl, rfl, rfl, rfl, fun h => ?_⟩
  constructor
  · simp [sweapTestResult, sweapTestStatus, h]
  · simp [mainTestResult, sweapTestResult, sweapTestStatus, h]

/-- Witness for C6 at exit code one. -/
theorem c6_witness :
    (sweapTestResult "t" 1).status = "tests_failed" ∧
    (mainTestResult "t" 1).status ≠ (sweapTestResult "t" 1).status :=
  (c6_variants_disagree "t" 1).2.2.2.2 (by decide)

/-- Counterexample to claim C7 as stated: the deadline is not measured
from the first emitted line.  With a ten-second timeout, supervision
starting at time zero and lines emitted at times eight and twelve, the
source loop terminates and kills the process at the second line (twelve
seconds after start), whereas a loop measuring from the first emitted
line would see only four elapsed seconds and do nothing. -/
theorem c7_counterexample :
    agent_stream_loop 10 0 true [(8, "a"), (12, "b")] =
      [SupAction.writeLine "a", SupAction.writeLine "b", SupAction.terminate,
        SupAction.sleepGrace 5, SupAction.kill] ∧
    agent_stream_loop_from_first_line 10 true [(8, "a"), (12, "b")] =
      [SupAction.writeLine "a", SupAction.writeLine "b"] ∧
    agent_stream_loop 10 0 true [(8, "a"), (12, "b")] ≠
      agent_stream_loop_from_first_line 10 true [(8, "a"), (12, "b")] := by
  refine ⟨by decide, by decide, by decide⟩

/-- Claim C7 (amended): the wall-clock deadline is measured from the
supervision start time taken just before the read loop, i.e. from process
start, and it is evaluated only when a line is emitted; at the first
emitted line whose time exceeds the deadline the process is asked to
terminate, given a five-second grace period, and killed if still alive. -/
theorem c7_amended_deadline_from_start (timeoutSeconds startTime : Int)
    (alive : Bool) (pre post : List (Int × String)) (t : Int) (s : String)
    (htm : timeoutSeconds > 0)
    (hpre : ∀ p ∈ pre, ¬ (p.1 - startTime > timeoutSeconds))
    (ht : t - startTime > timeoutSeconds) :
    agent_stream_loop timeoutSeconds startTime alive (pre ++ (t, s) :: post) =
      pre.map (fun p => SupAction.writeLine p.2) ++
        (SupAction.writeLine s :: SupAction.terminate :: SupAction.sleepGrace 5 ::
          (if alive then [SupAction.kill] else [])) := by
  induction pre with
  | nil =>
    simp only [List.nil_append, agent_stream_loop, List.map_nil]
    rw [if_pos ⟨htm, ht⟩]
  | cons hd tl ih =>
    obtain ⟨t1, s1⟩ := hd
    have hhd : ¬ (timeoutSeconds > 0 ∧ t1 - startTime > timeoutSeconds) :=
      fun hc => hpre (t1, s1) (List.mem_cons_self _ _) hc.2
    have htl : ∀ p ∈ tl, ¬ (p.1 - startTime > timeoutSeconds) :=
      fun p hp => hpre p (List.mem_cons_of_mem _ hp)
    simp only [List.cons_append, agent_stream_loop, List.map_cons]
    rw [if_neg hhd]
    simp only [List.append_eq]
    rw [ih htl]

/-- Witness for C7's amended theorem: timeout ten, start at zero, lines at
times three and eleven; the second line breaches the deadline. -/
theorem c7_witness :
    agent_stream_loop 10 0 true [(3, "x"), (11, "y")] =
      [SupAction.writeLine "x", SupAction.writeLine "y", SupAction.terminate,
        SupAction.sleepGrace 5, SupAction.kill] := by
  have h := c7_amended_deadline_from_start 10 0 true [(3, "x")] [] 11 "y"
    (by decide) (by decide) (by decide)
  simpa using h

/-- Counterexample to claim C8 as stated: for task id abc the staging
pipeline provisions the volume task_vol_abc, not task-volume-abc; the
claimed name is neither created nor registered. -/
theorem c8_counterexample :
    provisionVolume (fun _ => []) true ⟨[], []⟩ "abc" =
      Except.ok (⟨[], ["task_vol_abc"]⟩,
        [Cmd.psFilterVolume "task_vol_abc", Cmd.volumeRm "task_vol_abc",
          Cmd.volumeCreate "task_vol_abc"]) ∧
    "task-volume-abc" ∉ (Ledger.mk [] ["task_vol_abc"]).volumes ∧
    Cmd.volumeCreate "task-volume-abc" ∉
      [Cmd.psFilterVolume "task_vol_abc", Cmd.volumeRm "task_vol_abc",
        Cmd.volumeCreate "task_vol_abc"] :=
  ⟨rfl, by decide, by decide⟩

/-- Claim C8 (amended): for every task id the staging pipeline provisions
the volume under the deterministic name task_vol_ followed by the id
(not task-volume- followed by the id), after first querying and
force-removing any stale containers bound to that volume and removing any
pre-existing volume of that name, and it registers the name in the ledger
immediately after a successful creation. -/
theorem c8_amended_provision (ps : String → List String) (led : Ledger)
    (tid : String) :
    volumeNameOf tid = "task_vol_" ++ tid ∧
    provisionVolume ps true led tid =
      Except.ok ({ led with volumes := led.volumes ++ [volumeNameOf tid] },
        Cmd.psFilterVolume (volumeNameOf tid) ::
          ((ps (volumeNameOf tid)).map Cmd.rmForce ++
            [Cmd.volumeRm (volumeNameOf tid), Cmd.volumeCreate (volumeNameOf tid)])) :=
  ⟨rfl, rfl⟩

/-- The volume half of the cleanup trace contains, for every tracked
volume, the eviction query, the force-removes it triggers, and the volume
removal, in that order. -/
theorem cleanup_volume_cmds_chunk (res : Cmd → CmdRes) (ps : String → List String)
    (v : String) :
    ∀ vols : List String, v ∈ vols →
      ∃ pre post, cleanup_volume_cmds res ps vols =
        pre ++ (Cmd.psFilterVolume v ::
          ((ps v).map Cmd.rmForce ++ [Cmd.volumeRm v])) ++ post
  | [], h => absurd h (List.not_mem_nil v)
  | w :: rest, h => by
    rcases List.mem_cons.mp h with heq | hmem
    · subst heq
      exact ⟨[], cleanup_volume_cmds res ps rest, by
        simp [cleanup_volume_cmds, force_remove_containers_using_volume]⟩
    · obtain ⟨pre, post, hpp⟩ := cleanup_volume_cmds_chunk res ps v rest hmem
      refine ⟨(force_remove_containers_using_volume ps w ++ [Cmd.volumeRm w]) ++ pre,
        post, ?_⟩
      simp [cleanup_volume_cmds, hpp, force_remove_containers_using_volume]

/-- Claim C1: if the volume creation for a task succeeds and a subsequent
download fails, so the task terminates with status download_error, the
task's volume name is still registered in the ledger (it was registered
immediately after creation, before the fallible fetches), and the final
cleanup sweep with keep mode off drains the ledger, issuing for that
volume the eviction query, the force-removes of any containers still
using it, and then the volume removal. -/
theorem c1_download_error_volume_swept (keep : Bool) (res : Cmd → CmdRes)
    (ps : String → List String) (env : TaskEnv) (led : Ledger)
    (tid testCmd m : String)
    (hcreate : env.volumeCreateOk = true)
    (hdl : env.dlDockerfile = DlRes.fail m ∨ env.dlGitZip = DlRes.fail m) :
    ∃ led' r tr lg,
      runTask keep ps env led tid testCmd = Except.ok (led', r, tr, lg) ∧
      r.status = "download_error" ∧
      volumeNameOf tid ∈ led'.volumes ∧
      (cleanup false res ps led').1 = ⟨[], []⟩ ∧
      ∃ pre post,
        (cleanup false res ps led').2 =
          pre ++ (Cmd.psFilterVolume (volumeNameOf tid) ::
            ((ps (volumeNameOf tid)).map Cmd.rmForce ++
              [Cmd.volumeRm (volumeNameOf tid)])) ++ post := by
  have hled : ∀ led1 : Ledger, volumeNameOf tid ∈ led1.volumes →
      (cleanup false res ps led1).1 = ⟨[], []⟩ ∧
      ∃ pre post,
        (cleanup false res ps led1).2 =
          pre ++ (Cmd.psFilterVolume (volumeNameOf tid) ::
            ((ps (volumeNameOf tid)).map Cmd.rmForce ++
              [Cmd.volumeRm (volumeNameOf tid)])) ++ post := by
    intro led1 hmem
    refine ⟨rfl, ?_⟩
    obtain ⟨pre, post, hpp⟩ :=
      cleanup_volume_cmds_chunk res ps (volumeNameOf tid) led1.volumes hmem
    exact ⟨cleanup_container_cmds res led1.containers ++ pre, post, by
      simp [cleanup, hpp]⟩
  have hmem1 : volumeNameOf tid ∈
      ({ led with volumes := led.volumes ++ [volumeNameOf tid] } : Ledger).volumes := by
    simp
  rcases hdl with h1 | h2
  · have hrt : runTask keep ps env led tid testCmd =
        Except.ok ({ led with volumes := led.volumes ++ [volumeNameOf tid] },
          { task_id := tid, status := "download_error", error := some m },
          force_remove_containers_using_volume ps (volumeNameOf tid) ++
            [Cmd.volumeRm (volumeNameOf tid), Cmd.volumeCreate (volumeNameOf tid)],
          none) := by
      simp [runTask, provisionVolume, hcreate, h1]
    exact ⟨_, _, _, _, hrt, rfl, hmem1, (hled _ hmem1).1, (hled _ hmem1).2⟩
  · cases hd1 : env.dlDockerfile with
    | fail m1 =>
      have hrt : runTask keep ps env led tid testCmd =
          Except.ok ({ led with volumes := led.volumes ++ [volumeNameOf tid] },
            { task_id := tid, status := "download_error", error := some m1 },
            force_remove_containers_using_volume ps (volumeNameOf tid) ++
              [Cmd.volumeRm (volumeNameOf tid), Cmd.volumeCreate (volumeNameOf tid)],
            none) := by
        simp [runTask, provisionVolume, hcreate, hd1]
      exact ⟨_, _, _, _, hrt, rfl, hmem1, (hled _ hmem1).1, (hled _ hmem1).2⟩
    | ok =>
      have hrt : runTask keep ps env led tid testCmd =
          Except.ok ({ led with volumes := led.volumes ++ [volumeNameOf tid] },
            { task_id := tid, status := "download_error", error := some m },
            force_remove_containers_using_volume ps (volumeNameOf tid) ++
              [Cmd.volumeRm (volumeNameOf tid), Cmd.volumeCreate (volumeNameOf tid)],
            none) := by
        simp [runTask, provisionVolume, hcreate, hd1, h2]
      exact ⟨_, _, _, _, hrt, rfl, hmem1, (hled _ hmem1).1, (hled _ hmem1).2⟩

/-- A fully successful external environment for one task; witnesses vary
the stage whose failure they exercise. -/
def envAllOk : TaskEnv :=
  { volumeCreateOk := true, dlDockerfile := DlRes.ok, dlGitZip := DlRes.ok,
    unzipRes := Except.ok (), gitDirExists := true, copyOk := true,
    build := BuildStage.exitCode 0 "ok", startRc := 0,
    agentRes := Except.ok (), test := TestRes.exitCode 0 "out" }

/-- Witness for C1: archive download fails for task t1. -/
theorem c1_witness :
    ({ envAllOk with dlGitZip := DlRes.fail "boom" } : TaskEnv).volumeCreateOk = true ∧
    ∃ led' r tr lg,
      runTask false (fun _ => ["cid9"]) { envAllOk with dlGitZip := DlRes.fail "boom" }
          ⟨[], []⟩ "t1" "pytest" = Except.ok (led', r, tr, lg) ∧
      r.status = "download_error" ∧
      volumeNameOf "t1" ∈ led'.volumes ∧
      (cleanup false (fun _ => CmdRes.exitCode 0) (fun _ => ["cid9"]) led').1 = ⟨[], []⟩ ∧
      ∃ pre post,
        (cleanup false (fun _ => CmdRes.exitCode 0) (fun _ => ["cid9"]) led').2 =
          pre ++ (Cmd.psFilterVolume (volumeNameOf "t1") ::
            (((fun _ => ["cid9"]) (volumeNameOf "t1")).map Cmd.rmForce ++
              [Cmd.volumeRm (volumeNameOf "t1")])) ++ post :=
  ⟨rfl, c1_download_error_volume_swept false (fun _ => CmdRes.exitCode 0)
    (fun _ => ["cid9"]) { envAllOk with dlGitZip := DlRes.fail "boom" }
    ⟨[], []⟩ "t1" "pytest" "boom" rfl (Or.inr rfl)⟩

/-- The member-validation loop raises as soon as the member list contains
an escaping entry. -/
theorem checkMembers_error_of_escape (dest : List String) :
    ∀ members : List (List String),
      (∃ m ∈ members, is_within_directory dest (dest ++ m) = false) →
      ∃ e, checkMembers dest members = Except.error e
  | [], h => absurd h (by simp)
  | m :: rest, h => by
    cases hm : is_within_directory dest (dest ++ m) with
    | true =>
      rcases h with ⟨x, hx, hesc⟩
      rcases List.mem_cons.mp hx with rfl | hxr
      · rw [hm] at hesc; cases hesc
      · obtain ⟨e, he⟩ := checkMembers_error_of_escape dest rest ⟨x, hxr, hesc⟩
        exact ⟨e, by simp [checkMembers, hm, he]⟩
    | false =>
      refine ⟨"Zip member escapes dest dir: " ++ String.intercalate "/" m, ?_⟩
      simp [checkMembers, hm]

/-- Claim C3: for every archive with at least one entry whose resolved
path lies outside the destination directory, extraction fails before any
file is written (the extracted-file list is empty because every member is
validated before extraction begins), and in the pipeline that failure is
recorded as task status unzip_error. -/
theorem c3_zip_slip_rejected (dest : List String) (members : List (List String))
    (keep : Bool) (ps : String → List String) (env : TaskEnv) (led : Ledger)
    (tid testCmd : String)
    (hesc : ∃ m ∈ members, is_within_directory dest (dest ++ m) = false)
    (hcreate : env.volumeCreateOk = true)
    (hd1 : env.dlDockerfile = DlRes.ok) (hd2 : env.dlGitZip = DlRes.ok)
    (hunz : env.unzipRes = (unzip_to dest members).1) :
    (∃ e, unzip_to dest members = (Except.error e, [])) ∧
    ∃ led' r tr lg,
      runTask keep ps env led tid testCmd = Except.ok (led', r, tr, lg) ∧
      r.status = "unzip_error" := by
  obtain ⟨e, he⟩ := checkMembers_error_of_escape dest members hesc
  have hu : unzip_to dest members = (Except.error e, []) := by
    simp [unzip_to, he]
  have hunz' : env.unzipRes = Except.error e := by rw [hunz, hu]
  refine ⟨⟨e, hu⟩, ?_⟩
  have hrt : runTask keep ps env led tid testCmd =
      Except.ok ({ led with volumes := led.volumes ++ [volumeNameOf tid] },
        { task_id := tid, status := "unzip_error", error := some e },
        force_remove_containers_using_volume ps (volumeNameOf tid) ++
          [Cmd.volumeRm (volumeNameOf tid), Cmd.volumeCreate (volumeNameOf tid)],
        none) := by
    simp [runTask, provisionVolume, hcreate, hd1, hd2, hunz']
  exact ⟨_, _, _, _, hrt, rfl⟩

/-- Witness for C3: a crafted archive with one dot-dot traversal member. -/
theorem c3_witness :
    (∃ m ∈ [["..", "evil"]],
      is_within_directory ["tmp", "task"] (["tmp", "task"] ++ m) = false) ∧
    (∃ e, unzip_to ["tmp", "task"] [["..", "evil"]] = (Except.error e, [])) ∧
    ∃ led' r tr lg,
      runTask false (fun _ => [])
          { envAllOk with unzipRes := (unzip_to ["tmp", "task"] [["..", "evil"]]).1 }
          ⟨[], []⟩ "t3" "pytest" = Except.ok (led', r, tr, lg) ∧
      r.status = "unzip_error" :=
  ⟨⟨["..", "evil"], by decide⟩,
    c3_zip_slip_rejected ["tmp", "task"] [["..", "evil"]] false (fun _ => [])
      { envAllOk with unzipRes := (unzip_to ["tmp", "task"] [["..", "evil"]]).1 }
      ⟨[], []⟩ "t3" "pytest" ⟨["..", "evil"], by decide⟩ rfl rfl rfl rfl⟩

/-- Claim C4: when the image build fails, by a non-zero build exit code or
by the build deadline elapsing, the task terminates with status
build_failed, the per-task volume cleanup runs unless keep mode is
active (deregistering the volume and issuing the eviction query plus the
volume removal as the tail of the task's command trace), and no test
container is started: the trace contains no container start, no agent
invocation and no test exec. -/
theorem c4_build_failure_short_circuits (keep : Bool) (ps : String → List String)
    (env : TaskEnv) (led : Ledger) (tid testCmd : String)
    (hcreate : env.volumeCreateOk = true)
    (hd1 : env.dlDockerfile = DlRes.ok) (hd2 : env.dlGitZip = DlRes.ok)
    (hunz : env.unzipRes = Except.ok ()) (hgit : env.gitDirExists = true)
    (hcopy : env.copyOk = true)
    (hfresh : volumeNameOf tid ∉ led.volumes)
    (hbuild : (∃ rc out, rc ≠ 0 ∧ env.build = BuildStage.exitCode rc out) ∨
      env.build = BuildStage.timedOut) :
    ∃ led' r tr lg,
      runTask keep ps env led tid testCmd = Except.ok (led', r, tr, lg) ∧
      r.status = "build_failed" ∧ r.task_id = tid ∧
      (∀ c tg v2, Cmd.runDetached c tg v2 ∉ tr) ∧
      (∀ v2, Cmd.agentContainer v2 ∉ tr) ∧
      (∀ c s2, Cmd.execTest c s2 ∉ tr) ∧
      (keep = false →
        volumeNameOf tid ∉ led'.volumes ∧
        ∃ pre, tr = pre ++ (Cmd.psFilterVolume (volumeNameOf tid) ::
          ((ps (volumeNameOf tid)).map Cmd.rmForce ++
            [Cmd.volumeRm (volumeNameOf tid)]))) := by
  have herase : (led.volumes ++ [volumeNameOf tid]).erase (volumeNameOf tid) =
      led.volumes := by
    rw [List.erase_append_right _ hfresh]
    simp
  have hkeepPart :
      ∀ r : TaskResult, r.status = "build_failed" → r.task_id = tid →
      ∀ trHead : List Cmd,
      (∀ c tg v2, Cmd.runDetached c tg v2 ∉ trHead) →
      (∀ v2, Cmd.agentContainer v2 ∉ trHead) →
      (∀ c s2, Cmd.execTest c s2 ∉ trHead) →
      ∀ X : Except String (Ledger × TaskResult × List Cmd × Option String),
      X = Except.ok
          ((perTaskVolumeCleanup keep ps
              { led with volumes := led.volumes ++ [volumeNameOf tid] }
              (volumeNameOf tid)).1, r,
            trHead ++ (perTaskVolumeCleanup keep ps
              { led with volumes := led.volumes ++ [volumeNameOf tid] }
              (volumeNameOf tid)).2, (none : Option String)) →
      ∃ led' r2 tr lg,
        X = Except.ok (led', r2, tr, lg) ∧
        r2.status = "build_failed" ∧ r2.task_id = tid ∧
        (∀ c tg v2, Cmd.runDetached c tg v2 ∉ tr) ∧
        (∀ v2, Cmd.agentContainer v2 ∉ tr) ∧
        (∀ c s2, Cmd.execTest c s2 ∉ tr) ∧
        (keep = false →
          volumeNameOf tid ∉ led'.volumes ∧
          ∃ pre, tr = pre ++ (Cmd.psFilterVolume (volumeNameOf tid) ::
            ((ps (volumeNameOf tid)).map Cmd.rmForce ++
              [Cmd.volumeRm (volumeNameOf tid)]))) := by
    intro r hst hid trHead hnd hna hne X hX
    subst hX
    cases keep with
    | true =>
      refine ⟨_, _, _, _, rfl, hst, hid, ?_, ?_, ?_, fun hk => by cases hk⟩
      · intro c tg v2
        simp [perTaskVolumeCleanup, hnd c tg v2]
      · intro v2
        simp [perTaskVolumeCleanup, hna v2]
      · intro c s2
        simp [perTaskVolumeCleanup, hne c s2]
    | false =>
      refine ⟨_, _, _, _, rfl, hst, hid, ?_, ?_, ?_, fun _ => ⟨?_, ?_⟩⟩
      · intro c tg v2
        simp [perTaskVolumeCleanup, force_remove_containers_using_volume,
          hnd c tg v2]
      · intro v2
        simp [perTaskVolumeCleanup, force_remove_containers_using_volume,
          hna v2]
      · intro c s2
        simp [perTaskVolumeCleanup, force_remove_containers_using_volume,
          hne c s2]
      · simp [perTaskVolumeCleanup, herase, hfresh]
      · refine ⟨trHead, ?_⟩
        simp [perTaskVolumeCleanup, force_remove_containers_using_volume]
  rcases hbuild with ⟨rc, out, hrc, hb⟩ | hb
  · have hrt : runTask keep ps env led tid testCmd =
        Except.ok ((perTaskVolumeCleanup keep ps
            { led with volumes := led.volumes ++ [volumeNameOf tid] }
            (volumeNameOf tid)).1,
          { task_id := tid, status := "build_failed",
            error := some ("Command failed (" ++ toString rc ++ "): docker build\n" ++ out) },
          (force_remove_containers_using_volume ps (volumeNameOf tid) ++
            [Cmd.volumeRm (volumeNameOf tid), Cmd.volumeCreate (volumeNameOf tid)] ++
            [Cmd.copyWorkspaceToVolume (volumeNameOf tid)] ++
            [Cmd.stageBuildContext (volumeNameOf tid), Cmd.buildImage (imageTagOf tid)]) ++
            (perTaskVolumeCleanup keep ps
              { led with volumes := led.volumes ++ [volumeNameOf tid] }
              (volumeNameOf tid)).2,
          none) := by
      simp [runTask, provisionVolume, hcreate, hd1, hd2, hunz, hgit, hcopy, hb, hrc,
        buildCmds]
    refine hkeepPart _ rfl rfl _ ?_ ?_ ?_ _ hrt
    · intro c tg v2
      simp [force_remove_containers_using_volume]
    · intro v2
      simp [force_remove_containers_using_volume]
    · intro c s2
      simp [force_remove_containers_using_volume]
  · have hrt : runTask keep ps env led tid testCmd =
        Except.ok ((perTaskVolumeCleanup keep ps
            { led with volumes := led.volumes ++ [volumeNameOf tid] }
            (volumeNameOf tid)).1,
          { task_id := tid, status := "build_failed", error := some "TimeoutExpired" },
          (force_remove_containers_using_volume ps (volumeNameOf tid) ++
            [Cmd.volumeRm (volumeNameOf tid), Cmd.volumeCreate (volumeNameOf tid)] ++
            [Cmd.copyWorkspaceToVolume (volumeNameOf tid)] ++
            [Cmd.stageBuildContext (volumeNameOf tid), Cmd.buildImage (imageTagOf tid)]) ++
            (perTaskVolumeCleanup keep ps
              { led with volumes := led.volumes ++ [volumeNameOf tid] }
              (volumeNameOf tid)).2,
          none) := by
      simp [runTask, provisionVolume, hcreate, hd1, hd2, hunz, hgit, hcopy, hb,
        buildCmds]
    refine hkeepPart _ rfl rfl _ ?_ ?_ ?_ _ hrt
    · intro c tg v2
      simp [force_remove_containers_using_volume]
    · intro v2
      simp [force_remove_containers_using_volume]
    · intro c s2
      simp [force_remove_containers_using_volume]

/-- Witness for C4: the docker build of task t4 exits with code one. -/
theorem c4_witness :
    ∃ led' r tr lg,
      runTask false (fun _ => [])
          { envAllOk with build := BuildStage.exitCode 1 "err" }
          ⟨[], []⟩ "t4" "pytest" = Except.ok (led', r, tr, lg) ∧
      r.status = "build_failed" ∧ r.task_id = "t4" ∧
      (∀ c tg v2, Cmd.runDetached c tg v2 ∉ tr) ∧
      (∀ v2, Cmd.agentContainer v2 ∉ tr) ∧
      (∀ c s2, Cmd.execTest c s2 ∉ tr) ∧
      (false = false →
        volumeNameOf "t4" ∉ led'.volumes ∧
        ∃ pre, tr = pre ++ (Cmd.psFilterVolume (volumeNameOf "t4") ::
          (((fun _ => ([] : List String)) (volumeNameOf "t4")).map Cmd.rmForce ++
            [Cmd.volumeRm (volumeNameOf "t4")]))) :=
  c4_build_failure_short_circuits false (fun _ => [])
    { envAllOk with build := BuildStage.exitCode 1 "err" } ⟨[], []⟩ "t4" "pytest"
    rfl rfl rfl rfl rfl rfl (by decide)
    (Or.inl ⟨1, "err", by decide, rfl⟩)

/-- Claim C5: for a task that reaches the agent stage, the agent's outcome
is never fatal: whatever the agent stage returns (success, a launch
failure, or any exception), the pipeline produces the same ledger, the
same recorded result and the same command trace, the test command is
executed in the test container, and the recorded status is the one the
test stage determines; only the content written to the agent log can
differ. -/
theorem c5_agent_failure_not_fatal (keep : Bool) (ps : String → List String)
    (env : TaskEnv) (led : Ledger) (tid testCmd out : String)
    (ar ar' : Except String Unit)
    (hcreate : env.volumeCreateOk = true)
    (hd1 : env.dlDockerfile = DlRes.ok) (hd2 : env.dlGitZip = DlRes.ok)
    (hunz : env.unzipRes = Except.ok ()) (hgit : env.gitDirExists = true)
    (hcopy : env.copyOk = true)
    (hbuild : env.build = BuildStage.exitCode 0 out)
    (hstart : env.startRc = 0) :
    ∃ led' r tr lg lg',
      runTask keep ps { env with agentRes := ar } led tid testCmd =
        Except.ok (led', r, tr, lg) ∧
      runTask keep ps { env with agentRes := ar' } led tid testCmd =
        Except.ok (led', r, tr, lg') ∧
      Cmd.execTest (containerNameOf tid) testCmd ∈ tr ∧
      r.status = testStatus env.test := by
  have hrun : ∀ a : Except String Unit,
      runTask keep ps { env with agentRes := a } led tid testCmd =
        Except.ok ((perTaskFullCleanup keep ps
            (Ledger.mk (led.containers ++ [containerNameOf tid])
              (led.volumes ++ [volumeNameOf tid]))
            (containerNameOf tid) (volumeNameOf tid)).1,
          (match env.test with
            | TestRes.exitCode rc2 _ => mainTestResult tid rc2
            | TestRes.timedOut =>
              { task_id := tid, status := "tests_timeout",
                tests_ran_successfully := some false, tests_exit_code := none }
            | TestRes.err m =>
              { task_id := tid, status := "tests_error", error := some m,
                tests_ran_successfully := some false, tests_exit_code := none }),
          (force_remove_containers_using_volume ps (volumeNameOf tid) ++
            [Cmd.volumeRm (volumeNameOf tid), Cmd.volumeCreate (volumeNameOf tid)] ++
            [Cmd.copyWorkspaceToVolume (volumeNameOf tid)] ++
            [Cmd.stageBuildContext (volumeNameOf tid), Cmd.buildImage (imageTagOf tid)] ++
            [Cmd.rmForce (containerNameOf tid),
              Cmd.runDetached (containerNameOf tid) (imageTagOf tid) (volumeNameOf tid)] ++
            [Cmd.agentContainer (volumeNameOf tid),
              Cmd.execTest (containerNameOf tid) testCmd]) ++
            (perTaskFullCleanup keep ps
              (Ledger.mk (led.containers ++ [containerNameOf tid])
                (led.volumes ++ [volumeNameOf tid]))
              (containerNameOf tid) (volumeNameOf tid)).2,
          (match a with
            | Except.error m => some m
            | Except.ok _ => none)) := by
    intro a
    simp [runTask, provisionVolume, hcreate, hd1, hd2, hunz, hgit, hcopy, hbuild,
      hstart, buildCmds, List.append_assoc]
  refine ⟨_, _, _, _, _, hrun ar, hrun ar', ?_, ?_⟩
  · simp
  · cases env.test <;> simp [mainTestResult, testStatus]

/-- Witness for C5: a task whose agent stage raises still runs its tests
and is classified by the test stage. -/
theorem c5_witness :
    ∃ led' r tr lg lg',
      runTask false (fun _ => [])
          { envAllOk with agentRes := Except.error "agent crashed" }
          ⟨[], []⟩ "t5" "pytest" = Except.ok (led', r, tr, lg) ∧
      runTask false (fun _ => [])
          { envAllOk with agentRes := Except.ok () }
          ⟨[], []⟩ "t5" "pytest" = Except.ok (led', r, tr, lg') ∧
      Cmd.execTest (containerNameOf "t5") "pytest" ∈ tr ∧
      r.status = testStatus envAllOk.test :=
  c5_agent_failure_not_fatal false (fun _ => []) envAllOk ⟨[], []⟩ "t5" "pytest"
    "ok" (Except.error "agent crashed") (Except.ok ())
    rfl rfl rfl rfl rfl rfl rfl rfl

/-- Two list filters commute. -/
theorem filter_swap {α : Type} (p q : α → Bool) :
    ∀ l : List α, (l.filter p).filter q = (l.filter q).filter p
  | [] => rfl
  | a :: rest => by
    cases hp : p a <;> cases hq : q a <;>
      simp [List.filter_cons, hp, hq, filter_swap p q rest]

/-- Filters with pointwise equal predicates agree. -/
theorem filter_ext {α : Type} (p q : α → Bool) :
    ∀ l : List α, (∀ a, p a = q a) → l.filter p = l.filter q
  | [], _ => rfl
  | a :: rest, h => by
    cases hp : p a <;>
      simp [List.filter_cons, hp, (h a ▸ hp : q a = _), filter_ext p q rest h]

/-- Dropping the rows the dataframe pre-filter would drop anyway leaves
the pre-filter output unchanged. -/
theorem preFilter_filter_good (rows : List Row) :
    preFilter (rows.filter (fun r => r.task_id.isSome &&
      !((strOfCell r.task_id).trim == ""))) = preFilter rows := by
  induction rows with
  | nil => rfl
  | cons r rest ih =>
    simp only [preFilter, List.filter_cons] at ih ⊢
    cases h1 : r.task_id.isSome <;>
      cases h2 : (strOfCell r.task_id).trim == "" <;>
        simp [h1, h2, ih] <;>
          (apply filter_ext
           intro a
           cases ha1 : a.task_id.isSome <;>
             cases ha2 : (strOfCell a.task_id).trim == "" <;> simp [ha1, ha2])

/-- Claim C9: every input row whose task_id is absent or blank after
trimming is excluded before processing: the whole run behaves exactly as
if those rows were not in the input at all — same ledger, same summary
entries, same external commands. -/
theorem c9_blank_rows_excluded (keep : Bool) (res : Cmd → CmdRes)
    (ps : String → List String) (envOf : String → TaskEnv) (rows : List Row) :
    processRun keep res ps envOf rows =
      processRun keep res ps envOf
        (rows.filter (fun r => r.task_id.isSome &&
          !((strOfCell r.task_id).trim == ""))) := by
  unfold processRun
  rw [preFilter_filter_good]

/-- The orchestrator loop ignores rows whose stripped task_id lowercases
to nan, so removing them from its input changes nothing. -/
theorem runLoop_filter_nan (keep : Bool) (ps : String → List String)
    (envOf : String → TaskEnv) :
    ∀ (l : List Row) (led : Ledger) (acc : List TaskResult) (tr : List Cmd),
      runLoop keep ps envOf
        (l.filter (fun r => !((strOfCell r.task_id).trim.toLower == "nan")))
        led acc tr =
      runLoop keep ps envOf l led acc tr
  | [], _, _, _ => rfl
  | r :: rest, led, acc, tr => by
    cases hn : (strOfCell r.task_id).trim.toLower == "nan" <;>
      simp [List.filter_cons, hn, runLoop, runLoop_filter_nan keep ps envOf rest]

/-- Claim C10: beyond the blank and absent rule, every row whose stripped
task_id equals nan under case-insensitive comparison is skipped by the
orchestrator loop: the whole run behaves exactly as if those rows were
not in the input — no pipeline stage runs for them and no summary entry
is produced. -/
theorem c10_nan_rows_skipped (keep : Bool) (res : Cmd → CmdRes)
    (ps : String → List String) (envOf : String → TaskEnv) (rows : List Row) :
    processRun keep res ps envOf rows =
      processRun keep res ps envOf
        (rows.filter (fun r => !((strOfCell r.task_id).trim.toLower == "nan"))) := by
  unfold processRun
  have hcomm : preFilter (rows.filter
      (fun r => !((strOfCell r.task_id).trim.toLower == "nan"))) =
      (preFilter rows).filter
        (fun r => !((strOfCell r.task_id).trim.toLower == "nan")) := by
    simp only [preFilter]
    rw [filter_swap (fun r : Row => !((strOfCell r.task_id).trim.toLower == "nan"))
      (fun r : Row => r.task_id.isSome) rows]
    rw [filter_swap (fun r : Row => !((strOfCell r.task_id).trim.toLower == "nan"))
      (fun r : Row => !((strOfCell r.task_id).trim == ""))
      (rows.filter (fun r : Row => r.task_id.isSome))]
  rw [hcomm, runLoop_filter_nan]

end Salvage
